import Mathlib

/-!
Shallow embedding of the budget-recommendation engine of the `bud` repository.

Currency amounts, percentages and budget limits are Go `float64` values in the
source; they are modelled as rationals (`ℚ`), so the algebraic shape of every
computation (sums, products, divisions, comparisons, floors) is preserved
exactly.  Go's `math.Round` (round half away from zero) and the `float64 →
int64` truncation done by `time.Duration(...)` are modelled explicitly.
Presentation-only strings (justification texts, report rendering) are not
modelled; no claim concerns them.
-/

/-- Spending trend (`pkg/types/types.go`, `Trend`). -/
inductive Trend where
  | increasing
  | decreasing
  | stable
deriving DecidableEq, Repr

/-- Budget status (`pkg/types/types.go`, `BudgetStatus`). -/
inductive BudgetStatus where
  | overBudget
  | underUtilized
  | appropriate
  | noBudget
deriving DecidableEq, Repr

/-- Recommendation priority (`pkg/types/types.go`, `Priority`). -/
inductive Priority where
  | high
  | medium
  | low
deriving DecidableEq, Repr

/-- Budget access outcome (`pkg/types/types.go`, `BudgetAccessStatus`). -/
inductive BudgetAccessStatus where
  | success
  | notFound
  | accessDenied
  | error
deriving DecidableEq, Repr

/-- Cost for one month (`pkg/types/types.go`, `MonthlyCost`). -/
structure MonthlyCost where
  Month : String
  Amount : ℚ
deriving DecidableEq, Repr

/-- Cost data for an account (`pkg/types/types.go`, `AccountCostData`).
A Go `error` value is modelled as `Option String` (`none` = nil). -/
structure AccountCostData where
  AccountID : String
  AccountName : String
  MonthlyCosts : List MonthlyCost
  Error : Option String := none
deriving DecidableEq, Repr

/-- Budget configuration retrieved from AWS (`pkg/types/types.go`,
`BudgetConfig`). -/
structure BudgetConfig where
  AccountID : String
  AccountName : String
  BudgetName : String := ""
  LimitAmount : ℚ := 0
  TimeUnit : String := ""
  HasForecasted : Bool := false
  HasActual : Bool := false
  Subscribers : List String := []
  AccessStatus : BudgetAccessStatus
  AccessError : Option String := none
deriving DecidableEq, Repr

/-- Calculated spending statistics (`pkg/types/types.go`, `SpendStatistics`). -/
structure SpendStatistics where
  AccountID : String
  AccountName : String
  AverageMonthlySpend : ℚ := 0
  PeakMonthlySpend : ℚ := 0
  MinMonthlySpend : ℚ := 0
  CurrentMonthSpend : Option ℚ := none
  Trend : Trend := .stable
  MonthsAnalyzed : ℕ := 0
deriving DecidableEq, Repr

/-- Comparison between spend and budget (`pkg/types/types.go`,
`BudgetComparison`). -/
structure BudgetComparison where
  AccountID : String
  AccountName : String
  CurrentBudget : Option ℚ := none
  AverageSpend : ℚ := 0
  PeakSpend : ℚ := 0
  UtilizationPercent : Option ℚ := none
  Status : BudgetStatus
deriving DecidableEq, Repr

/-- A budget recommendation (`pkg/types/types.go`, `BudgetRecommendation`).
The presentation-only `Justification` string is not modelled.  The
`BudgetAccessStatus` field starts at Go's zero value (here `none`) and is
assigned by the orchestration loop after generation. -/
structure BudgetRecommendation where
  AccountID : String
  AccountName : String
  CurrentBudget : Option ℚ := none
  RecommendedBudget : ℚ := 0
  AverageSpend : ℚ := 0
  PeakSpend : ℚ := 0
  AdjustmentPercent : ℚ := 0
  Priority : Priority := .low
  BudgetAccessStatus : Option BudgetAccessStatus := none
  PolicyName : String := ""
deriving DecidableEq, Repr

/-- Policy for generating recommendations (`pkg/types/types.go`,
`RecommendationPolicy`). -/
structure RecommendationPolicy where
  Name : String := ""
  GrowthBuffer : ℚ := 0
  MinimumBudget : ℚ := 0
  RoundingIncrement : ℚ := 0
deriving DecidableEq, Repr

/-- Budget policy for a specific account (`pkg/types/types.go`,
`AccountPolicy`). -/
structure AccountPolicy where
  Account : String
  Name : String := ""
  GrowthBuffer : ℚ := 0
  MinimumBudget : ℚ := 0
  RoundingIncrement : ℚ := 0
deriving DecidableEq, Repr

/-- Budget policy keyed by an account tag (`pkg/types/types.go`,
`TagPolicy`). -/
structure TagPolicy where
  TagKey : String
  TagValue : String
  Name : String := ""
  GrowthBuffer : ℚ := 0
  MinimumBudget : ℚ := 0
  RoundingIncrement : ℚ := 0
deriving DecidableEq, Repr

/-- Budget policy for an Organizational Unit (`pkg/types/types.go`,
`OUPolicy`). -/
structure OUPolicy where
  OU : String
  Name : String := ""
  GrowthBuffer : ℚ := 0
  MinimumBudget : ℚ := 0
  RoundingIncrement : ℚ := 0
deriving DecidableEq, Repr

/-- All policy configurations (`pkg/types/types.go`, `PolicyConfig`). -/
structure PolicyConfig where
  OUPolicies : List OUPolicy := []
  AccountPolicies : List AccountPolicy := []
  TagPolicies : List TagPolicy := []
deriving DecidableEq, Repr

/-- Per-account analysis error (`pkg/types/types.go`, `AnalysisError`). -/
structure AnalysisError where
  AccountID : String
  AccountName : String
  Error : String
deriving DecidableEq, Repr

/-- The complete analysis result (`pkg/types/types.go`, `AnalysisResult`).
The `Timestamp` and `Config` snapshot fields are not modelled (real time /
opaque configuration echo; no claim concerns them). -/
structure AnalysisResult where
  AccountsAnalyzed : ℕ := 0
  AccountsWithBudgets : ℕ := 0
  AccountsWithoutBudgets : ℕ := 0
  Recommendations : List BudgetRecommendation := []
  Errors : List AnalysisError := []
deriving DecidableEq, Repr

/-- Policy resolver state (`internal/policy/resolver.go`, `Resolver`).  The two
Go maps (account → OU id, account → tag map) are modelled as association lists
with first-match lookup; Go map keys are unique, so first-match lookup agrees
with map indexing. -/
structure Resolver where
  config : PolicyConfig
  defaultPolicy : RecommendationPolicy
  accountToOU : List (String × String) := []
  accountToTags : List (String × List (String × String)) := []
deriving DecidableEq, Repr

/-- First-match association-list lookup, modelling Go's `m[k]` with `ok`. -/
def assocLookup {α : Type} (m : List (String × α)) (k : String) : Option α :=
  (m.find? (fun p => p.1 == k)).map (fun p => p.2)

/-- Go's `math.Round`: round half away from zero. -/
def goRound (x : ℚ) : ℚ :=
  if x < 0 then -((⌊-x + 1/2⌋ : ℤ) : ℚ) else ((⌊x + 1/2⌋ : ℤ) : ℚ)

/-- Rounds a value to the nearest increment
(`internal/budgets/client_test.go` recommender part, `roundToIncrement`). -/
def roundToIncrement (value increment : ℚ) : ℚ :=
  if increment = 0 then value
  else goRound (value / increment) * increment

/-- Priority level from comparison status and adjustment
(`internal/budgets/client_test.go` recommender part, `determinePriority`). -/
def determinePriority (comparison : BudgetComparison)
    (adjustmentPercent : ℚ) : Priority :=
  let absAdjustment := |adjustmentPercent|
  if comparison.Status = .overBudget ∨ absAdjustment > 50 then .high
  else if absAdjustment > 20 then .medium
  else .low

/-- Budget recommendation from a comparison, statistics and a policy
(`internal/budgets/client_test.go` recommender part,
`GenerateRecommendationWithPolicy`).  Nil pointer arguments are modelled as
`none`; the returned Go `(nil, err)` pair is modelled as `Except`. -/
def GenerateRecommendationWithPolicy (comparison : Option BudgetComparison)
    (statistics : Option SpendStatistics) (policy : RecommendationPolicy) :
    Except String BudgetRecommendation :=
  match comparison with
  | none => .error "comparison cannot be nil"
  | some comparison =>
    match statistics with
    | none => .error "statistics cannot be nil"
    | some statistics =>
      let growthBuffer := if policy.GrowthBuffer = 0 then 20 else policy.GrowthBuffer
      let recommendedBudget := statistics.PeakMonthlySpend * (1 + growthBuffer / 100)
      let recommendedBudget :=
        if recommendedBudget < policy.MinimumBudget then policy.MinimumBudget
        else recommendedBudget
      let recommendedBudget :=
        if policy.RoundingIncrement > 0 then
          roundToIncrement recommendedBudget policy.RoundingIncrement
        else recommendedBudget
      let adjustmentPercent :=
        match comparison.CurrentBudget with
        | some current =>
          if current > 0 then ((recommendedBudget - current) / current) * 100
          else 100
        | none => 100
      .ok
        { AccountID := comparison.AccountID
          AccountName := comparison.AccountName
          CurrentBudget := comparison.CurrentBudget
          AverageSpend := comparison.AverageSpend
          PeakSpend := comparison.PeakSpend
          PolicyName := policy.Name
          RecommendedBudget := recommendedBudget
          AdjustmentPercent := adjustmentPercent
          Priority := determinePriority comparison adjustmentPercent }

/-- Sorts recommendations by absolute adjustment percent, descending, over a
copy of the input (`internal/budgets/client_test.go` recommender part,
`PrioritizeRecommendations`).  The Go code delegates to the standard library's
`sort.Slice` with `less i j = |adj i| > |adj j|`; `sort.Slice` guarantees a
permutation ordered by that comparison but is documented as not stable.  It is
modelled here by a merge sort, which satisfies the same ordering contract. -/
def PrioritizeRecommendations (recommendations : List BudgetRecommendation) :
    List BudgetRecommendation :=
  recommendations.mergeSort
    (fun a b => |b.AdjustmentPercent| ≤ |a.AdjustmentPercent|)

/-- The four running sums of the trend regression loop
(`internal/reporter/reporter.go` analyzer part, body of `calculateTrend`):
given the remaining list and the index of its head, returns
`(sumX, sumY, sumXY, sumX2)`. -/
def trendSums : List MonthlyCost → ℕ → ℚ × ℚ × ℚ × ℚ
  | [], _ => (0, 0, 0, 0)
  | cost :: rest, i =>
    let s := trendSums rest (i + 1)
    ((i : ℚ) + s.1, cost.Amount + s.2.1,
      (i : ℚ) * cost.Amount + s.2.2.1, (i : ℚ) * (i : ℚ) + s.2.2.2)

/-- Spending trend from monthly costs (`internal/reporter/reporter.go`
analyzer part, `calculateTrend`): simple linear regression of spend against
0-based month index, with a 5%-of-average threshold. -/
def calculateTrend (monthlyCosts : List MonthlyCost) : Trend :=
  if monthlyCosts.length < 2 then .stable
  else
    let n : ℚ := monthlyCosts.length
    let s := trendSums monthlyCosts 0
    let sumX := s.1
    let sumY := s.2.1
    let sumXY := s.2.2.1
    let sumX2 := s.2.2.2
    let numerator := n * sumXY - sumX * sumY
    let denominator := n * sumX2 - sumX * sumX
    if denominator = 0 then .stable
    else
      let slope := numerator / denominator
      let threshold := (5 / 100) * (sumY / n)
      if |slope| < threshold then .stable
      else if slope > 0 then .increasing
      else .decreasing

/-- The sum / peak / min accumulation loop of `CalculateStatistics`
(`internal/reporter/reporter.go` analyzer part). -/
def spendFold : List MonthlyCost → ℚ × ℚ × ℚ → ℚ × ℚ × ℚ
  | [], acc => acc
  | cost :: rest, (sum, peak, low) =>
    spendFold rest
      (sum + cost.Amount,
        if cost.Amount > peak then cost.Amount else peak,
        if cost.Amount < low then cost.Amount else low)

/-- Spending statistics from cost data (`internal/reporter/reporter.go`
analyzer part, `CalculateStatistics`).  A nil pointer argument is `none`; the
Go `(nil, err)` return is modelled as `Except`. -/
def CalculateStatistics (costData : Option AccountCostData) :
    Except String SpendStatistics :=
  match costData with
  | none => .error "cost data cannot be nil"
  | some costData =>
    match costData.Error with
    | some e => .error ("cost data contains error: " ++ e)
    | none =>
      match costData.MonthlyCosts with
      | [] =>
        .ok { AccountID := costData.AccountID
              AccountName := costData.AccountName
              MonthsAnalyzed := 0
              Trend := .stable }
      | first :: rest =>
        let acc := spendFold (first :: rest) (0, first.Amount, first.Amount)
        let count := (first :: rest).length
        .ok { AccountID := costData.AccountID
              AccountName := costData.AccountName
              AverageMonthlySpend := acc.1 / (count : ℚ)
              PeakMonthlySpend := acc.2.1
              MinMonthlySpend := acc.2.2
              MonthsAnalyzed := count
              CurrentMonthSpend := ((first :: rest).getLast?).map (fun c => c.Amount)
              Trend := calculateTrend (first :: rest) }

/-- Comparison of statistics against a budget configuration
(`internal/reporter/reporter.go` analyzer part, `CompareToBudget`). -/
def CompareToBudget (statistics : Option SpendStatistics)
    (budgetConfig : Option BudgetConfig) : Except String BudgetComparison :=
  match statistics with
  | none => .error "statistics cannot be nil"
  | some statistics =>
    match budgetConfig with
    | none =>
      .ok { AccountID := statistics.AccountID
            AccountName := statistics.AccountName
            AverageSpend := statistics.AverageMonthlySpend
            PeakSpend := statistics.PeakMonthlySpend
            Status := .noBudget }
    | some budgetConfig =>
      if budgetConfig.LimitAmount > 0 then
        let utilization := statistics.AverageMonthlySpend / budgetConfig.LimitAmount * 100
        .ok { AccountID := statistics.AccountID
              AccountName := statistics.AccountName
              AverageSpend := statistics.AverageMonthlySpend
              PeakSpend := statistics.PeakMonthlySpend
              CurrentBudget := some budgetConfig.LimitAmount
              UtilizationPercent := some utilization
              Status :=
                if utilization > 100 then .overBudget
                else if utilization < 50 then .underUtilized
                else .appropriate }
      else
        .ok { AccountID := statistics.AccountID
              AccountName := statistics.AccountName
              AverageSpend := statistics.AverageMonthlySpend
              PeakSpend := statistics.PeakMonthlySpend
              CurrentBudget := some budgetConfig.LimitAmount
              Status := .noBudget }

/-- Go's conversion `time.Duration(x)` of a `float64`: truncation toward
zero. -/
def ratTrunc (q : ℚ) : ℤ :=
  if q < 0 then -⌊-q⌋ else ⌊q⌋

/-- Exponential backoff with jitter, in milliseconds
(`src/unnamed/part_002`, cost-explorer client, `calculateBackoff`).
`backoffBase` is the client's configured base in ms; `r` models
`time.Now().UnixNano() % 1000` (so `r < 1000` in every actual call). -/
def calculateBackoff (backoffBase : ℚ) (attempt : ℕ) (r : ℕ) : ℤ :=
  let backoffMs := backoffBase * 2 ^ attempt
  let backoffMs := if backoffMs > 60000 then 60000 else backoffMs
  let jitter := backoffMs * (25 / 100)
  let backoffMs := backoffMs - jitter + 2 * jitter * (r : ℚ) / 1000
  ratTrunc backoffMs

/-- Field-level merge of rule values onto a base policy
(`internal/policy/resolver.go`, `mergePolicy`).  The Go method receives the
base by value and writes only its local copy, so the caller's base is never
mutated; here that is literal, since the function is pure. -/
def mergePolicy (base : RecommendationPolicy) (name : String)
    (growthBuffer minimumBudget roundingIncrement : ℚ) : RecommendationPolicy :=
  let policy := base
  let policy := if name ≠ "" then { policy with Name := name } else policy
  let policy :=
    if growthBuffer > 0 then { policy with GrowthBuffer := growthBuffer } else policy
  let policy :=
    if minimumBudget > 0 then { policy with MinimumBudget := minimumBudget } else policy
  let policy :=
    if roundingIncrement > 0 then { policy with RoundingIncrement := roundingIncrement }
    else policy
  policy

/-- The account-policy loop of `ResolvePolicy`: first rule whose `Account`
matches (`internal/policy/resolver.go`, step 1). -/
def findAccountPolicy : List AccountPolicy → String → Option AccountPolicy
  | [], _ => none
  | p :: rest, accountID =>
    if p.Account == accountID then some p else findAccountPolicy rest accountID

/-- The tag-policy loop of `ResolvePolicy`: first rule whose tag key is present
in the account's tag map with exactly the rule's value
(`internal/policy/resolver.go`, step 2). -/
def findTagPolicy : List TagPolicy → List (String × String) → Option TagPolicy
  | [], _ => none
  | p :: rest, tags =>
    match assocLookup tags p.TagKey with
    | some tagValue =>
      if tagValue == p.TagValue then some p else findTagPolicy rest tags
    | none => findTagPolicy rest tags

/-- The OU-policy loop of `ResolvePolicy`: first rule whose `OU` matches the
account's resolved OU id (`internal/policy/resolver.go`, step 3). -/
def findOUPolicy : List OUPolicy → String → Option OUPolicy
  | [], _ => none
  | p :: rest, ouID =>
    if p.OU == ouID then some p else findOUPolicy rest ouID

/-- Policy resolution for one account (`internal/policy/resolver.go`,
`ResolvePolicy`): Account rule, then Tag rule, then OU rule, then the default
policy. -/
def ResolvePolicy (r : Resolver) (accountID : String) : RecommendationPolicy :=
  match findAccountPolicy r.config.AccountPolicies accountID with
  | some accountPolicy =>
    mergePolicy r.defaultPolicy accountPolicy.Name accountPolicy.GrowthBuffer
      accountPolicy.MinimumBudget accountPolicy.RoundingIncrement
  | none =>
    let tagMatch :=
      match assocLookup r.accountToTags accountID with
      | some tags => findTagPolicy r.config.TagPolicies tags
      | none => none
    match tagMatch with
    | some tagPolicy =>
      mergePolicy r.defaultPolicy tagPolicy.Name tagPolicy.GrowthBuffer
        tagPolicy.MinimumBudget tagPolicy.RoundingIncrement
    | none =>
      let ouMatch :=
        match assocLookup r.accountToOU accountID with
        | some ouID => findOUPolicy r.config.OUPolicies ouID
        | none => none
      match ouMatch with
      | some ouPolicy =>
        mergePolicy r.defaultPolicy ouPolicy.Name ouPolicy.GrowthBuffer
          ouPolicy.MinimumBudget ouPolicy.RoundingIncrement
      | none => r.defaultPolicy

/-- One iteration of the per-account analysis loop of `runAnalysis`
(`internal/cmd/root.go`, lines 356-433): the account contributes either one
entry to `Errors` (on a failure at the cost, statistics, comparison or
recommendation stage) or one entry to `Recommendations`. -/
def processAccount (resolver : Resolver)
    (budgetData : List (String × List BudgetConfig))
    (result : AnalysisResult) (cost : AccountCostData) : AnalysisResult :=
  match cost.Error with
  | some e =>
    { result with
      Errors := result.Errors ++
        [{ AccountID := cost.AccountID, AccountName := cost.AccountName, Error := e }] }
  | none =>
    match CalculateStatistics (some cost) with
    | .error e =>
      { result with
        Errors := result.Errors ++
          [{ AccountID := cost.AccountID, AccountName := cost.AccountName, Error := e }] }
    | .ok stats =>
      let budgetConfig : Option BudgetConfig :=
        match assocLookup budgetData cost.AccountID with
        | some (b :: _) => some b
        | _ => none
      let budgetAccessStatus : BudgetAccessStatus :=
        match budgetConfig with
        | some b => b.AccessStatus
        | none => .notFound
      let result : AnalysisResult :=
        match budgetConfig with
        | some b =>
          if b.AccessStatus = BudgetAccessStatus.success then
            { result with AccountsWithBudgets := result.AccountsWithBudgets + 1 }
          else
            { result with AccountsWithoutBudgets := result.AccountsWithoutBudgets + 1 }
        | none =>
          { result with AccountsWithoutBudgets := result.AccountsWithoutBudgets + 1 }
      match CompareToBudget (some stats) budgetConfig with
      | .error e =>
        { result with
          Errors := result.Errors ++
            [{ AccountID := cost.AccountID, AccountName := cost.AccountName, Error := e }] }
      | .ok comparison =>
        let accountPolicy := ResolvePolicy resolver cost.AccountID
        match GenerateRecommendationWithPolicy (some comparison) (some stats) accountPolicy with
        | .error e =>
          { result with
            Errors := result.Errors ++
              [{ AccountID := cost.AccountID, AccountName := cost.AccountName, Error := e }] }
        | .ok recommendation =>
          let recommendation :=
            { recommendation with BudgetAccessStatus := some budgetAccessStatus }
          { result with
            Recommendations := result.Recommendations ++ [recommendation]
            AccountsAnalyzed := result.AccountsAnalyzed + 1 }

/-- The analysis phase of `runAnalysis` (`internal/cmd/root.go`, lines
349-436): fold the per-account loop over the fetched cost data — one
`AccountCostData` per submitted account — then re-order the recommendations
with `PrioritizeRecommendations`.  Cancellation (which aborts the run without
producing a result) is not modelled; the claims concern completed runs. -/
def runAnalysisLoop (resolver : Resolver)
    (budgetData : List (String × List BudgetConfig))
    (costData : List AccountCostData) : AnalysisResult :=
  let result := costData.foldl (processAccount resolver budgetData) {}
  { result with Recommendations := PrioritizeRecommendations result.Recommendations }

/-- Whether the recommender returned a Go error (`err != nil`). -/
def isRecommendationError (x : Except String BudgetRecommendation) : Bool :=
  match x with
  | .error _ => true
  | .ok _ => false

/-- Concrete comparison input: average spend 5, peak spend 10, no budget
(mirrors `TestGenerateRecommendation_MinimumBudget`). -/
def exComparison : BudgetComparison :=
  { AccountID := "123456789012", AccountName := "test-account",
    AverageSpend := 5, PeakSpend := 10, Status := .noBudget }

/-- Concrete statistics input: peak monthly spend 10 over 3 months. -/
def exStatistics : SpendStatistics :=
  { AccountID := "123456789012", AccountName := "test-account",
    AverageMonthlySpend := 5, PeakMonthlySpend := 10, MinMonthlySpend := 2,
    MonthsAnalyzed := 3 }

/-- Concrete policy: growth 20%, minimum 100, rounding increment 1000. -/
def exPolicyBigIncrement : RecommendationPolicy :=
  { Name := "P", GrowthBuffer := 20, MinimumBudget := 100, RoundingIncrement := 1000 }

/-- Concrete policy: growth 20%, minimum 100, rounding increment 10. -/
def exPolicyTen : RecommendationPolicy :=
  { Name := "P", GrowthBuffer := 20, MinimumBudget := 100, RoundingIncrement := 10 }

/-- The recommendation produced for `exComparison` / `exStatistics` under
`exPolicyTen`: raw 10 × 1.2 = 12, floored to the minimum 100, rounding to the
nearest 10 keeps 100; no current budget, so the adjustment is 100. -/
def exRecommendationTen : BudgetRecommendation :=
  { AccountID := "123456789012", AccountName := "test-account",
    CurrentBudget := none, RecommendedBudget := 100, AverageSpend := 5,
    PeakSpend := 10, AdjustmentPercent := 100, Priority := .high,
    BudgetAccessStatus := none, PolicyName := "P" }

/-- Concrete default policy for the resolver examples. -/
def exDefaultPolicy : RecommendationPolicy :=
  { Name := "Default", GrowthBuffer := 20, MinimumBudget := 10, RoundingIncrement := 10 }

/-- Concrete account rule matching account 111122223333. -/
def exAccountRule : AccountPolicy :=
  { Account := "111122223333", Name := "AcctRule", GrowthBuffer := 30,
    MinimumBudget := 500, RoundingIncrement := 50 }

/-- Concrete tag rule matching tag `env = prod`. -/
def exTagRule : TagPolicy :=
  { TagKey := "env", TagValue := "prod", Name := "TagRule", GrowthBuffer := 40 }

/-- Concrete OU rule matching OU `ou-1`. -/
def exOURule : OUPolicy :=
  { OU := "ou-1", Name := "OURule", MinimumBudget := 200 }

/-- Concrete resolver where account 111122223333 is matched by an Account
rule, a Tag rule and an OU rule at once. -/
def exResolver : Resolver :=
  { config := { OUPolicies := [exOURule], AccountPolicies := [exAccountRule],
                TagPolicies := [exTagRule] }
    defaultPolicy := exDefaultPolicy
    accountToOU := [("111122223333", "ou-1")]
    accountToTags := [("111122223333", [("env", "prod")])] }

/-- Concrete strictly increasing cost series. -/
def exIncreasingCosts : List MonthlyCost :=
  [{ Month := "2025-01", Amount := 100 }, { Month := "2025-02", Amount := 150 },
    { Month := "2025-03", Amount := 200 }, { Month := "2025-04", Amount := 250 }]

/-- Concrete statistics with average monthly spend 120. -/
def exStats120 : SpendStatistics :=
  { AccountID := "1", AccountName := "a", AverageMonthlySpend := 120,
    PeakMonthlySpend := 150, MonthsAnalyzed := 3 }

/-- Concrete budget with limit 100. -/
def exBudget100 : BudgetConfig :=
  { AccountID := "1", AccountName := "a", BudgetName := "b", LimitAmount := 100,
    AccessStatus := .success }

/-- The comparison produced for `exStats120` against `exBudget100`:
utilization 120%, over budget. -/
def exComparisonOut : BudgetComparison :=
  { AccountID := "1", AccountName := "a", CurrentBudget := some 100,
    AverageSpend := 120, PeakSpend := 150, UtilizationPercent := some 120,
    Status := .overBudget }

/-- Concrete comparison whose status is over-budget. -/
def exOverComparison : BudgetComparison :=
  { AccountID := "1", AccountName := "a", Status := .overBudget }

/-- Concrete comparison whose status is appropriate. -/
def exApprComparison : BudgetComparison :=
  { AccountID := "1", AccountName := "a", Status := .appropriate }

theorem goRound_ge (x : ℚ) : x - 1 / 2 ≤ goRound x := by
  unfold goRound
  split
  · have h := Int.floor_le (-x + 1 / 2)
    push_cast at h ⊢
    linarith
  · have h := Int.lt_floor_add_one (x + 1 / 2)
    push_cast at h ⊢
    linarith

theorem processAccount_length (resolver : Resolver)
    (budgetData : List (String × List BudgetConfig))
    (result : AnalysisResult) (cost : AccountCostData) :
    (processAccount resolver budgetData result cost).Recommendations.length +
        (processAccount resolver budgetData result cost).Errors.length =
      result.Recommendations.length + result.Errors.length + 1 := by
  unfold processAccount
  repeat' split
  all_goals try simp +arith [List.length_append]
  all_goals repeat' split
  all_goals simp +arith [List.length_append]

theorem foldl_processAccount_length (resolver : Resolver)
    (budgetData : List (String × List BudgetConfig)) :
    ∀ (costData : List AccountCostData) (result : AnalysisResult),
      (costData.foldl (processAccount resolver budgetData) result).Recommendations.length +
          (costData.foldl (processAccount resolver budgetData) result).Errors.length =
        result.Recommendations.length + result.Errors.length + costData.length := by
  intro costData
  induction costData with
  | nil => intro result; simp
  | cons cost rest ih =>
    intro result
    have h := processAccount_length resolver budgetData result cost
    simp only [List.foldl_cons, List.length_cons]
    rw [ih (processAccount resolver budgetData result cost)]
    omega

/-- C1.  For every completed analysis run over the fetched per-account cost
data (one `AccountCostData` per submitted account), whatever mix of
per-account failures occurs at the cost-fetch, statistics, comparison or
recommendation stage, the final result satisfies
`Recommendations.length + Errors.length = number of accounts`: each account
contributes exactly one recommendation or exactly one error record. -/
theorem analysis_completeness (resolver : Resolver)
    (budgetData : List (String × List BudgetConfig))
    (costData : List AccountCostData) :
    (runAnalysisLoop resolver budgetData costData).Recommendations.length +
        (runAnalysisLoop resolver budgetData costData).Errors.length =
      costData.length := by
  unfold runAnalysisLoop
  simp only [PrioritizeRecommendations, List.length_mergeSort]
  have h := foldl_processAccount_length resolver budgetData costData {}
  simpa using h

/-- C5.  `mergePolicy base name gb mb ri` never alters `base` (it is a pure
function of a by-value copy); an empty override name keeps the base name,
a zero-or-negative numeric override keeps the base value, a non-empty name
and strictly positive numeric overrides replace the base values. -/
theorem merge_non_destructive (base : RecommendationPolicy) (name : String)
    (growthBuffer minimumBudget roundingIncrement : ℚ) :
    (name = "" →
      (mergePolicy base name growthBuffer minimumBudget roundingIncrement).Name = base.Name) ∧
    (name ≠ "" →
      (mergePolicy base name growthBuffer minimumBudget roundingIncrement).Name = name) ∧
    (growthBuffer ≤ 0 →
      (mergePolicy base name growthBuffer minimumBudget roundingIncrement).GrowthBuffer =
        base.GrowthBuffer) ∧
    (0 < growthBuffer →
      (mergePolicy base name growthBuffer minimumBudget roundingIncrement).GrowthBuffer =
        growthBuffer) ∧
    (minimumBudget ≤ 0 →
      (mergePolicy base name growthBuffer minimumBudget roundingIncrement).MinimumBudget =
        base.MinimumBudget) ∧
    (0 < minimumBudget →
      (mergePolicy base name growthBuffer minimumBudget roundingIncrement).MinimumBudget =
        minimumBudget) ∧
    (roundingIncrement ≤ 0 →
      (mergePolicy base name growthBuffer minimumBudget roundingIncrement).RoundingIncrement =
        base.RoundingIncrement) ∧
    (0 < roundingIncrement →
      (mergePolicy base name growthBuffer minimumBudget roundingIncrement).RoundingIncrement =
        roundingIncrement) := by
  refine ⟨fun h => ?_, fun h => ?_, fun h => ?_, fun h => ?_, fun h => ?_, fun h => ?_,
    fun h => ?_, fun h => ?_⟩ <;>
    unfold mergePolicy <;>
    split_ifs <;>
    first
      | rfl
      | (exfalso; linarith)
      | simp_all

/-- Witness for C5: merging with an empty name and the non-positive overrides
0 and -5 keeps the base name and base minimum budget. -/
theorem merge_non_destructive_witness :
    (mergePolicy exDefaultPolicy "" 0 (-5) 0).Name = exDefaultPolicy.Name ∧
    (mergePolicy exDefaultPolicy "" 0 (-5) 0).MinimumBudget =
      exDefaultPolicy.MinimumBudget := by
  have h := merge_non_destructive exDefaultPolicy "" 0 (-5) 0
  exact ⟨h.1 rfl, h.2.2.2.2.1 (by norm_num)⟩

/-- C7.  The priority is High exactly when the comparison status is
over-budget or the absolute adjustment exceeds 50; Medium exactly when the
status is not over-budget and the absolute adjustment exceeds 20 but not 50;
and Low otherwise. -/
theorem priority_thresholds (c : BudgetComparison) (adj : ℚ) :
    (determinePriority c adj = .high ↔
      (c.Status = .overBudget ∨ 50 < |adj|)) ∧
    (determinePriority c adj = .medium ↔
      (c.Status ≠ .overBudget ∧ 20 < |adj| ∧ |adj| ≤ 50)) ∧
    (determinePriority c adj = .low ↔
      (c.Status ≠ .overBudget ∧ |adj| ≤ 20)) := by
  simp only [determinePriority]
  split_ifs with h1 h2
  · rcases h1 with h1 | h1
    · exact ⟨by simp [h1], by simp [h1], by simp [h1]⟩
    · refine ⟨by simp [h1], ?_, ?_⟩
      · simp [not_le.mpr h1]
      · simp [show ¬|adj| ≤ 20 by linarith]
  · push_neg at h1
    obtain ⟨hs, hle⟩ := h1
    exact ⟨by simp [hs, not_lt.mpr hle], by simp [hs, h2, hle],
      by simp [not_le.mpr h2]⟩
  · push_neg at h1
    obtain ⟨hs, hle⟩ := h1
    rw [not_lt] at h2
    exact ⟨by simp [hs, not_lt.mpr hle], by simp [not_lt.mpr h2],
      by simp [hs, h2]⟩

/-- Witness for C7: an over-budget status yields High at adjustment 10;
with a non-over status, adjustment 60 yields High, 30 Medium, 10 Low. -/
theorem priority_thresholds_witness :
    determinePriority exOverComparison 10 = Priority.high ∧
    determinePriority exApprComparison 60 = Priority.high ∧
    determinePriority exApprComparison 30 = Priority.medium ∧
    determinePriority exApprComparison 10 = Priority.low := by
  have h60 : |(60 : ℚ)| = 60 := abs_of_pos (by norm_num)
  have h30 : |(30 : ℚ)| = 30 := abs_of_pos (by norm_num)
  have h10 : |(10 : ℚ)| = 10 := abs_of_pos (by norm_num)
  refine ⟨?_, ?_, ?_, ?_⟩
  · exact (priority_thresholds exOverComparison 10).1.mpr (Or.inl rfl)
  · exact (priority_thresholds exApprComparison 60).1.mpr
      (Or.inr (by rw [h60]; norm_num))
  · exact (priority_thresholds exApprComparison 30).2.1.mpr
      ⟨by simp [exApprComparison], by rw [h30]; norm_num, by rw [h30]; norm_num⟩
  · exact (priority_thresholds exApprComparison 10).2.2.mpr
      ⟨by simp [exApprComparison], by rw [h10]; norm_num⟩

/-- C9.  Generating a recommendation fails exactly when the comparison
argument or the statistics argument is absent (nil); with both present it
returns a recommendation and no error, for every policy. -/
theorem recommendation_error_contract (c : Option BudgetComparison)
    (s : Option SpendStatistics) (p : RecommendationPolicy) :
    isRecommendationError (GenerateRecommendationWithPolicy c s p) = true ↔
      (c = none ∨ s = none) := by
  cases c <;> cases s <;>
    simp [GenerateRecommendationWithPolicy, isRecommendationError]

/-- Witness for C9: a nil comparison with present statistics is an error. -/
theorem recommendation_error_witness :
    isRecommendationError
      (GenerateRecommendationWithPolicy none (some exStatistics) exPolicyTen) = true :=
  (recommendation_error_contract none (some exStatistics) exPolicyTen).mpr (Or.inl rfl)

/-- C2 (counterexample).  The claim asserts the recommended budget is never
below the minimum-budget floor for all combinations of minimum budget and
rounding increment, but rounding happens after flooring: with peak spend 10,
growth 20% (raw 12), minimum 100 and rounding increment 1000, the floored
value 100 is rounded to the nearest multiple of 1000, which is 0 — strictly
below the minimum of 100. -/
theorem minimum_floor_counterexample :
    (GenerateRecommendationWithPolicy (some exComparison) (some exStatistics)
          exPolicyBigIncrement).toOption.map
        (fun r => r.RecommendedBudget) = some 0 ∧
    (0 : ℚ) < exPolicyBigIncrement.MinimumBudget := by
  constructor
  · have hfloor : ⌊(100 : ℚ) / 1000 + 1 / 2⌋ = 0 := by
      apply Int.floor_eq_iff.mpr
      constructor <;> norm_num
    have hgr : goRound ((100 : ℚ) / 1000) = 0 := by
      unfold goRound
      rw [if_neg (by norm_num), hfloor]
      norm_num
    have hrt : roundToIncrement 100 1000 = 0 := by
      unfold roundToIncrement
      rw [if_neg (by norm_num), hgr]
      norm_num
    simp only [GenerateRecommendationWithPolicy, exComparison, exStatistics,
      exPolicyBigIncrement]
    norm_num [hrt, Except.toOption]
  · norm_num [exPolicyBigIncrement]

/-- C2 (amended).  The floor of step 3 holds before rounding: when no rounding
increment is configured the recommended budget is at least the minimum budget;
with a positive rounding increment, rounding to the nearest multiple can
undercut the floor by at most half the increment, so the recommended budget is
at least `minimum - increment / 2` (and the spec's concrete example — peak 10,
growth 20%, minimum 100, increment 10 — still yields exactly 100). -/
theorem minimum_floor_amended (c : BudgetComparison) (s : SpendStatistics)
    (p : RecommendationPolicy) (r : BudgetRecommendation)
    (h : GenerateRecommendationWithPolicy (some c) (some s) p = .ok r) :
    (p.RoundingIncrement ≤ 0 → p.MinimumBudget ≤ r.RecommendedBudget) ∧
    (0 < p.RoundingIncrement →
      p.MinimumBudget - p.RoundingIncrement / 2 ≤ r.RecommendedBudget) := by
  simp only [GenerateRecommendationWithPolicy, Except.ok.injEq] at h
  subst h
  simp only
  set growthBuffer := if p.GrowthBuffer = 0 then (20 : ℚ) else p.GrowthBuffer with hgb
  set raw := s.PeakMonthlySpend * (1 + growthBuffer / 100) with hraw
  set floored := if raw < p.MinimumBudget then p.MinimumBudget else raw with hfl
  have hmin : p.MinimumBudget ≤ floored := by
    rw [hfl]
    split_ifs with hc
    · exact le_refl _
    · exact le_of_not_lt hc
  constructor
  · intro hinc
    rw [if_neg (not_lt.mpr hinc)]
    exact hmin
  · intro hinc
    rw [if_pos hinc]
    unfold roundToIncrement
    rw [if_neg (ne_of_gt hinc)]
    have hg := goRound_ge (floored / p.RoundingIncrement)
    have hmul := mul_le_mul_of_nonneg_right hg (le_of_lt hinc)
    have heq : (floored / p.RoundingIncrement - 1 / 2) * p.RoundingIncrement =
        floored - p.RoundingIncrement / 2 := by
      field_simp
      ring
    rw [heq] at hmul
    linarith

/-- Witness for C2 (amended): with peak 10, growth 20%, minimum 100 and
increment 10 the recommended budget is 100, which satisfies the amended
bound `minimum - increment / 2 = 95`. -/
theorem minimum_floor_witness :
    exPolicyTen.MinimumBudget - exPolicyTen.RoundingIncrement / 2 ≤
      exRecommendationTen.RecommendedBudget := by
  have hfloor : ⌊(100 : ℚ) / 10 + 1 / 2⌋ = 10 := by
    apply Int.floor_eq_iff.mpr
    constructor <;> norm_num
  have hgr : goRound ((100 : ℚ) / 10) = 10 := by
    unfold goRound
    rw [if_neg (by norm_num), hfloor]
    norm_num
  have hrt : roundToIncrement 100 10 = 100 := by
    unfold roundToIncrement
    rw [if_neg (by norm_num), hgr]
    norm_num
  have habs : |(100 : ℚ)| = 100 := abs_of_pos (by norm_num)
  have h : GenerateRecommendationWithPolicy (some exComparison) (some exStatistics)
      exPolicyTen = .ok exRecommendationTen := by
    simp only [GenerateRecommendationWithPolicy, exComparison, exStatistics,
      exPolicyTen, exRecommendationTen, determinePriority]
    norm_num [hrt, habs]
  exact (minimum_floor_amended exComparison exStatistics exPolicyTen
    exRecommendationTen h).2 (by norm_num [exPolicyTen])

/-- C3 (counterexample).  The claim asserts the delay never exceeds 60000 ms
for large attempts, but the 60-second cap is applied before the jitter: with
base 1000 ms, attempt 6 (raw 64000 ms, capped to 60000 ms) and jitter draw
999/1000, the delay is 60000 × 1.2495 = 74970 ms, above the cap. -/
theorem backoff_cap_counterexample :
    (60000 : ℤ) < calculateBackoff 1000 6 999 := by
  simp only [calculateBackoff, ratTrunc]
  norm_num

/-- C3 (amended).  For every nonnegative base, attempt number and jitter draw
`r < 1000` (modelling `UnixNano() % 1000`), the delay lies within ±25% of
`m = min(60000, base · 2^attempt)` up to the 1 ms truncation: it is greater
than `0.75·m - 1` and at most `1.2495·m`; consequently it never exceeds
74970 ms — the cap is applied before the jitter, so delays between 60000 and
74970 ms do occur and 60000 is not an upper bound. -/
theorem backoff_bounds_amended (base : ℚ) (attempt : ℕ) (r : ℕ)
    (hbase : 0 ≤ base) (hr : r < 1000) :
    (if base * 2 ^ attempt > 60000 then (60000 : ℚ)
        else base * 2 ^ attempt) * (3 / 4) - 1 <
      (calculateBackoff base attempt r : ℚ) ∧
    (calculateBackoff base attempt r : ℚ) ≤
      (if base * 2 ^ attempt > 60000 then (60000 : ℚ)
          else base * 2 ^ attempt) * (2499 / 2000) ∧
    (calculateBackoff base attempt r : ℚ) ≤ 74970 := by
  have hb : (0 : ℚ) ≤ base * 2 ^ attempt := mul_nonneg hbase (by positivity)
  simp only [calculateBackoff, ratTrunc]
  set m : ℚ := if base * 2 ^ attempt > 60000 then (60000 : ℚ) else base * 2 ^ attempt
    with hm
  have hm0 : 0 ≤ m := by
    rw [hm]
    split_ifs
    · norm_num
    · exact hb
  have hm60 : m ≤ 60000 := by
    rw [hm]
    split_ifs with h
    · exact le_refl _
    · exact le_of_not_lt h
  set j : ℚ := m - m * (25 / 100) + 2 * (m * (25 / 100)) * (r : ℚ) / 1000 with hjdef
  have hr0 : (0 : ℚ) ≤ (r : ℚ) := by positivity
  have hr999 : (r : ℚ) ≤ 999 := by
    have : (r : ℚ) < 1000 := by exact_mod_cast hr
    have hz : (r : ℚ) ≤ 999 := by
      have := Nat.lt_succ_iff.mp (by omega : r < 1000)
      exact_mod_cast this
    exact hz
  have hjeq : j = m * (3 / 4) + m * (r : ℚ) / 2000 := by rw [hjdef]; ring
  have hsecond0 : 0 ≤ m * (r : ℚ) / 2000 := by positivity
  have hsecond999 : m * (r : ℚ) / 2000 ≤ m * 999 / 2000 := by
    have := mul_le_mul_of_nonneg_left hr999 hm0
    linarith
  have hj0 : 0 ≤ j := by
    rw [hjeq]
    have : 0 ≤ m * (3 / 4) := by positivity
    linarith
  rw [if_neg (not_lt.mpr hj0)]
  have hfle : ((⌊j⌋ : ℤ) : ℚ) ≤ j := Int.floor_le j
  have hflt : j - 1 < ((⌊j⌋ : ℤ) : ℚ) := Int.sub_one_lt_floor j
  clear_value m j
  refine ⟨?_, ?_, ?_⟩
  · have : m * (3 / 4) ≤ j := by rw [hjeq]; linarith
    linarith
  · have : j ≤ m * (2499 / 2000) := by rw [hjeq]; linarith
    linarith
  · have h1 : j ≤ m * (2499 / 2000) := by rw [hjeq]; linarith
    have h2 : m * (2499 / 2000) ≤ 60000 * (2499 / 2000) := by linarith
    have h3 : (60000 : ℚ) * (2499 / 2000) = 74970 := by norm_num
    linarith

/-- Witness for C3 (amended): base 1000 ms, attempt 0, jitter draw 0 — the
delay 750 ms satisfies all three bounds (m = 1000). -/
theorem backoff_bounds_witness :
    (if (1000 : ℚ) * 2 ^ 0 > 60000 then (60000 : ℚ)
        else (1000 : ℚ) * 2 ^ 0) * (3 / 4) - 1 <
      (calculateBackoff 1000 0 0 : ℚ) ∧
    (calculateBackoff 1000 0 0 : ℚ) ≤
      (if (1000 : ℚ) * 2 ^ 0 > 60000 then (60000 : ℚ)
          else (1000 : ℚ) * 2 ^ 0) * (2499 / 2000) ∧
    (calculateBackoff 1000 0 0 : ℚ) ≤ 74970 :=
  backoff_bounds_amended 1000 0 0 (by norm_num) (by norm_num)

theorem findAccountPolicy_eq (l : List AccountPolicy) (accountID : String) :
    findAccountPolicy l accountID = l.find? (fun p => p.Account == accountID) := by
  induction l with
  | nil => rfl
  | cons p rest ih =>
    cases h : (p.Account == accountID) <;>
      simp [findAccountPolicy, List.find?, h, ih]

theorem findOUPolicy_eq (l : List OUPolicy) (ouID : String) :
    findOUPolicy l ouID = l.find? (fun p => p.OU == ouID) := by
  induction l with
  | nil => rfl
  | cons p rest ih =>
    cases h : (p.OU == ouID) <;>
      simp [findOUPolicy, List.find?, h, ih]

theorem findTagPolicy_eq (l : List TagPolicy) (tags : List (String × String)) :
    findTagPolicy l tags =
      l.find? (fun p => assocLookup tags p.TagKey == some p.TagValue) := by
  induction l with
  | nil => rfl
  | cons p rest ih =>
    cases hl : assocLookup tags p.TagKey with
    | none => simp [findTagPolicy, List.find?, hl, ih]
    | some v =>
      cases hv : (v == p.TagValue) <;>
        simp [findTagPolicy, List.find?, hl, hv, ih]

/-- C4.  Policy resolution follows the fixed priority Account > Tag > OU >
Default: the first matching Account rule's merged values are returned; with no
Account rule matching, the first matching Tag rule's; with no Tag rule
matching, the first matching OU rule's; with no rule matching — in particular
when the account has no loaded metadata — the default policy. -/
theorem policy_priority (r : Resolver) (accountID : String) :
    (∀ ap, r.config.AccountPolicies.find? (fun p => p.Account == accountID) = some ap →
      ResolvePolicy r accountID =
        mergePolicy r.defaultPolicy ap.Name ap.GrowthBuffer ap.MinimumBudget
          ap.RoundingIncrement) ∧
    (r.config.AccountPolicies.find? (fun p => p.Account == accountID) = none →
      (∀ tags tp, assocLookup r.accountToTags accountID = some tags →
        r.config.TagPolicies.find?
            (fun p => assocLookup tags p.TagKey == some p.TagValue) = some tp →
        ResolvePolicy r accountID =
          mergePolicy r.defaultPolicy tp.Name tp.GrowthBuffer tp.MinimumBudget
            tp.RoundingIncrement) ∧
      ((∀ tags, assocLookup r.accountToTags accountID = some tags →
          r.config.TagPolicies.find?
            (fun p => assocLookup tags p.TagKey == some p.TagValue) = none) →
        (∀ ouID op, assocLookup r.accountToOU accountID = some ouID →
          r.config.OUPolicies.find? (fun p => p.OU == ouID) = some op →
          ResolvePolicy r accountID =
            mergePolicy r.defaultPolicy op.Name op.GrowthBuffer op.MinimumBudget
              op.RoundingIncrement) ∧
        ((∀ ouID, assocLookup r.accountToOU accountID = some ouID →
            r.config.OUPolicies.find? (fun p => p.OU == ouID) = none) →
          ResolvePolicy r accountID = r.defaultPolicy))) := by
  refine ⟨?_, ?_⟩
  · intro ap h
    unfold ResolvePolicy
    rw [findAccountPolicy_eq, h]
  · intro hA
    refine ⟨?_, ?_⟩
    · intro tags tp htags htp
      unfold ResolvePolicy
      rw [findAccountPolicy_eq, hA, htags]
      dsimp only
      rw [findTagPolicy_eq, htp]
    · intro hTagMiss
      have htm :
          (match assocLookup r.accountToTags accountID with
            | some tags => findTagPolicy r.config.TagPolicies tags
            | none => none) = (none : Option TagPolicy) := by
        cases hT : assocLookup r.accountToTags accountID with
        | none => rfl
        | some tags =>
          simpa [findTagPolicy_eq] using hTagMiss tags hT
      refine ⟨?_, ?_⟩
      · intro ouID op hou hop
        unfold ResolvePolicy
        rw [findAccountPolicy_eq, hA, htm]
        dsimp only
        rw [hou]
        dsimp only
        rw [findOUPolicy_eq, hop]
      · intro hOUMiss
        have hom :
            (match assocLookup r.accountToOU accountID with
              | some ouID => findOUPolicy r.config.OUPolicies ouID
              | none => none) = (none : Option OUPolicy) := by
          cases hO : assocLookup r.accountToOU accountID with
          | none => rfl
          | some ouID =>
            simpa [findOUPolicy_eq] using hOUMiss ouID hO
        unfold ResolvePolicy
        rw [findAccountPolicy_eq, hA, htm]
        dsimp only
        rw [hom]

/-- Witness for C4: in `exResolver` the account 111122223333 is matched by an
Account rule, a Tag rule and an OU rule at once, and resolution returns the
Account rule's merged values. -/
theorem policy_priority_witness :
    ResolvePolicy exResolver "111122223333" =
      mergePolicy exResolver.defaultPolicy exAccountRule.Name
        exAccountRule.GrowthBuffer exAccountRule.MinimumBudget
        exAccountRule.RoundingIncrement :=
  (policy_priority exResolver "111122223333").1 exAccountRule
    (by simp [exResolver, exAccountRule, List.find?])

/-- C6.  For a chronological list of monthly spends: with fewer than 2 months
the trend is Stable; otherwise, with `slope` the ordinary-least-squares
coefficient of spend against the 0-based month index and
`threshold = 0.05 × average`, the trend is Stable when the regression
denominator is zero or `|slope| < threshold`, Increasing when `slope > 0` and
`|slope| ≥ threshold`, and Decreasing when `slope < 0` and
`|slope| ≥ threshold`. -/
theorem trend_classification (monthlyCosts : List MonthlyCost) :
    (monthlyCosts.length < 2 → calculateTrend monthlyCosts = Trend.stable) ∧
    (2 ≤ monthlyCosts.length →
      let n : ℚ := monthlyCosts.length
      let s := trendSums monthlyCosts 0
      let numerator := n * s.2.2.1 - s.1 * s.2.1
      let denominator := n * s.2.2.2 - s.1 * s.1
      let slope := numerator / denominator
      let threshold := (5 / 100) * (s.2.1 / n)
      (denominator = 0 → calculateTrend monthlyCosts = Trend.stable) ∧
      (denominator ≠ 0 →
        (|slope| < threshold → calculateTrend monthlyCosts = Trend.stable) ∧
        (0 < slope → threshold ≤ |slope| →
          calculateTrend monthlyCosts = Trend.increasing) ∧
        (slope < 0 → threshold ≤ |slope| →
          calculateTrend monthlyCosts = Trend.decreasing))) := by
  constructor
  · intro h
    unfold calculateTrend
    rw [if_pos h]
  · intro h
    dsimp only
    unfold calculateTrend
    rw [if_neg (not_lt.mpr h)]
    dsimp only
    constructor
    · intro hden
      rw [if_pos hden]
    · intro hden
      rw [if_neg hden]
      refine ⟨?_, ?_, ?_⟩
      · intro hlt
        rw [if_pos hlt]
      · intro hpos hge
        rw [if_neg (not_lt.mpr hge), if_pos hpos]
      · intro hneg hge
        rw [if_neg (not_lt.mpr hge), if_neg (not_lt.mpr (le_of_lt hneg))]

/-- Witness for C6: the strictly increasing series 100, 150, 200, 250 has
slope 50 and threshold 8.75, hence trend Increasing. -/
theorem trend_classification_witness :
    calculateTrend exIncreasingCosts = Trend.increasing := by
  have habs : |(50 : ℚ)| = 50 := abs_of_pos (by norm_num)
  exact ((trend_classification exIncreasingCosts).2
      (by norm_num [exIncreasingCosts])).2
    (by norm_num [exIncreasingCosts, trendSums])
    |>.2.1
    (by norm_num [exIncreasingCosts, trendSums])
    (by norm_num [exIncreasingCosts, trendSums, habs])

/-- C10.  `CompareToBudget` classifies by fixed utilization thresholds: with
no budget record, or a record whose limit is zero or negative, the status is
no-budget and no utilization percent is produced; with a positive limit,
utilization = average spend / limit × 100, and the status is over-budget
exactly when utilization > 100, under-utilized exactly when utilization < 50,
and appropriate otherwise. -/
theorem comparison_thresholds (s : SpendStatistics) (b : Option BudgetConfig)
    (c : BudgetComparison)
    (h : CompareToBudget (some s) b = .ok c) :
    (b = none → c.Status = BudgetStatus.noBudget ∧ c.UtilizationPercent = none) ∧
    (∀ bc, b = some bc →
      (bc.LimitAmount ≤ 0 →
        c.Status = BudgetStatus.noBudget ∧ c.UtilizationPercent = none) ∧
      (0 < bc.LimitAmount →
        c.UtilizationPercent = some (s.AverageMonthlySpend / bc.LimitAmount * 100) ∧
        (c.Status = BudgetStatus.overBudget ↔
          100 < s.AverageMonthlySpend / bc.LimitAmount * 100) ∧
        (c.Status = BudgetStatus.underUtilized ↔
          s.AverageMonthlySpend / bc.LimitAmount * 100 < 50) ∧
        (c.Status = BudgetStatus.appropriate ↔
          (50 ≤ s.AverageMonthlySpend / bc.LimitAmount * 100 ∧
            s.AverageMonthlySpend / bc.LimitAmount * 100 ≤ 100)))) := by
  cases b with
  | none =>
    simp only [CompareToBudget, Except.ok.injEq] at h
    subst h
    constructor
    · intro _
      exact ⟨rfl, rfl⟩
    · intro bc hbc
      cases hbc
  | some bc0 =>
    simp only [CompareToBudget] at h
    by_cases hl : bc0.LimitAmount > 0
    · rw [if_pos hl] at h
      simp only [Except.ok.injEq] at h
      subst h
      refine ⟨(fun hnone => nomatch hnone), ?_⟩
      intro bc hbc
      obtain rfl : bc0 = bc := by injection hbc
      refine ⟨fun hle => absurd hl (not_lt.mpr hle), fun hpos => ?_⟩
      refine ⟨rfl, ?_, ?_, ?_⟩ <;>
        dsimp only <;>
        split_ifs with h1 h2 <;>
        simp <;>
        first
          | linarith
          | (exact ⟨by linarith, by linarith⟩)
          | (intro; linarith)
    · rw [if_neg hl] at h
      simp only [Except.ok.injEq] at h
      subst h
      refine ⟨(fun hnone => nomatch hnone), ?_⟩
      intro bc hbc
      obtain rfl : bc0 = bc := by injection hbc
      refine ⟨fun _ => ⟨rfl, rfl⟩, fun hpos => absurd hpos hl⟩

/-- Witness for C10: average spend 120 against limit 100 gives utilization
120% and status over-budget. -/
theorem comparison_thresholds_witness :
    exComparisonOut.Status = BudgetStatus.overBudget := by
  have h : CompareToBudget (some exStats120) (some exBudget100) = .ok exComparisonOut := by
    simp only [CompareToBudget, exStats120, exBudget100, exComparisonOut]
    norm_num
  exact (((comparison_thresholds exStats120 (some exBudget100) exComparisonOut h).2
      exBudget100 rfl).2 (by norm_num [exBudget100])).2.1.mpr
    (by norm_num [exStats120, exBudget100])
